import Mathlib

/-!
Verification of the LucidEverything news-agent repository.

The development shallowly embeds the Python modules `lucid_client.py`,
`agent.py` and `twitter_client.py`.  Python strings are Lean `String`s;
the string methods used by the source (`lower`, `strip`, `split` with and
without a separator, `in`, `startswith`, `endswith`, slicing) are modelled
by structurally recursive functions over the underlying character lists.
The HTTP transport is modelled by oracle functions returning
`Except String r`: an `Except.error` value models a raised
`requests` exception, an `Except.ok` value models a decoded JSON response
(absent JSON fields become `Option.none`).  Python `try/except` blocks
become explicit `match`es on those `Except` values.
-/

deriving instance DecidableEq for Except

/-- Model of Python `sub in s` restricted to the prefix test:
`isPrefixChars sep l` is true when `sep` is a prefix of `l`. -/
def isPrefixChars : List Char → List Char → Bool
  | [], _ => true
  | _ :: _, [] => false
  | x :: xs, c :: cs => x == c && isPrefixChars xs cs

/-- Fuelled worker for `splitOnChars`; the fuel is the length of the input,
which suffices because each step consumes at least one character when the
separator is nonempty. -/
def splitOnCharsAux (sep : List Char) : Nat → List Char → List Char → List (List Char)
  | _, acc, [] => [acc.reverse]
  | 0, acc, rest => [acc.reverse ++ rest]
  | fuel + 1, acc, c :: rest =>
      if isPrefixChars sep (c :: rest) then
        acc.reverse :: splitOnCharsAux sep fuel [] ((c :: rest).drop sep.length)
      else
        splitOnCharsAux sep fuel (c :: acc) rest

/-- Split on every non-overlapping occurrence of `sep`, left to right:
the semantics of Python `str.split(sep)` for a nonempty separator. -/
def splitOnChars (sep l : List Char) : List (List Char) :=
  splitOnCharsAux sep l.length [] l

/-- Python `s.split(sep)` for a nonempty separator. -/
def pySplit (s sep : String) : List String :=
  (splitOnChars sep.data s.data).map String.mk

/-- Worker for `pyContains`: scans every suffix for the pattern. -/
def containsAux (sep : List Char) : List Char → Bool
  | [] => sep.isEmpty
  | c :: rest => isPrefixChars sep (c :: rest) || containsAux sep rest

/-- Python `sub in s` (substring containment). -/
def pyContains (s sub : String) : Bool :=
  sub.isEmpty || containsAux sub.data s.data

/-- The ASCII whitespace characters recognised by Python `str.strip()` and
`str.split()` without arguments. -/
def pyIsSpace (c : Char) : Bool :=
  c == ' ' || c == '\t' || c == '\n' || c == '\r' || c == '\x0b' || c == '\x0c'

/-- Strip leading and trailing whitespace from a character list. -/
def pyStripChars (l : List Char) : List Char :=
  ((l.dropWhile pyIsSpace).reverse.dropWhile pyIsSpace).reverse

/-- Python `s.strip()`. -/
def pyStrip (s : String) : String := String.mk (pyStripChars s.data)

/-- Worker for `pySplitWs`: split on runs of whitespace, dropping empty
pieces, as Python `str.split()` without arguments does. -/
def pySplitWsAux : List Char → List Char → List (List Char)
  | acc, [] => if acc.isEmpty then [] else [acc.reverse]
  | acc, c :: rest =>
      if pyIsSpace c then
        if acc.isEmpty then pySplitWsAux [] rest
        else acc.reverse :: pySplitWsAux [] rest
      else pySplitWsAux (c :: acc) rest

/-- Python `s.split()` (no separator argument). -/
def pySplitWs (s : String) : List String :=
  (pySplitWsAux [] s.data).map String.mk

/-- Python `s.lower()` (ASCII case folding, which covers every input the
source manipulates). -/
def pyLower (s : String) : String := String.mk (s.data.map Char.toLower)

/-- Python `s.endswith(suffix)`. -/
def pyEndsWith (s suffix : String) : Bool :=
  isPrefixChars suffix.data.reverse s.data.reverse

/-- Python `s.startswith(p)`. -/
def pyStartsWith (s p : String) : Bool :=
  isPrefixChars p.data s.data

/-- The decimal digit characters. -/
def digitChar (d : Nat) : Char :=
  if d = 0 then '0' else if d = 1 then '1' else if d = 2 then '2' else if d = 3 then '3'
  else if d = 4 then '4' else if d = 5 then '5' else if d = 6 then '6' else if d = 7 then '7'
  else if d = 8 then '8' else '9'

/-- Fuelled decimal rendering of a natural number. -/
def natReprAux : Nat → Nat → List Char
  | 0, _ => []
  | fuel + 1, n => if n < 10 then [digitChar n] else natReprAux fuel (n / 10) ++ [digitChar (n % 10)]

/-- Decimal rendering of a natural number, as Python `f"{n}"` produces. -/
def natRepr (n : Nat) : String := String.mk (natReprAux (n + 1) n)

/-- Python `', '.join(l)`. -/
def joinSep (sep : String) : List String → String
  | [] => ""
  | [x] => x
  | x :: y :: rest => x ++ sep ++ joinSep sep (y :: rest)

/-- Python truthiness of an optional string (`None` and `""` are falsy). -/
def truthyOpt : Option String → Bool
  | none => false
  | some s => decide (s ≠ "")

/-- Decoded JSON body of `/generate_keyword_news_summary` and
`/generate_stream_news_summary` responses: `success` defaults to `False`
when absent, `message` and `insight_id` are absent-able fields. -/
structure SummaryResponse where
  success : Bool
  message : Option String
  insight_id : Option Nat
  deriving DecidableEq

/-- Decoded JSON body of a `/insights/{id}` response. -/
structure Insight where
  content : Option String
  deriving DecidableEq

/-- Decoded JSON body of a `/create_api_key` response. -/
structure CreateKeyResponse where
  api_key : Option String
  user_id : Option String
  deriving DecidableEq

/-- Decoded JSON body of a `/health` response. -/
structure HealthResponse where
  status : Option String
  deriving DecidableEq

/-- The session state blob kept per conversation thread by `NewsAgent`. -/
structure AgentState where
  api_key : Option String
  user_id : Option String
  user_name : String
  deriving DecidableEq

/-- Body of the POST to `/generate_keyword_news_summary` built by
`LucidClient.create_news_summary`. -/
structure SummaryRequest where
  user_prompt : String
  timeframe : String
  workspace_id : Nat
  deriving DecidableEq

/-- Body of the POST to `/generate_stream_news_summary` built by
`LucidClient.create_stream_news_summary`. -/
structure StreamRequest where
  stream_ids : List Int
  workspace_id : Nat
  timeframe : String
  user_prompt : Option String
  deriving DecidableEq

/-- The timespan normalisation performed inline by both summary methods of
`LucidClient` (lucid_client.py lines 126-131 and 193-198). -/
def normalizeTimespan (timespan : String) : String :=
  if pyEndsWith timespan "h" then timespan
  else if pyEndsWith timespan "d" then timespan
  else timespan ++ "h"

/-- The default topic list substituted by `create_news_summary` when
`topics` is `None` or empty. -/
def defaultTopics : List String := ["finance", "technology", "world"]

/-- The request body `create_news_summary` sends (lucid_client.py lines
137-141). -/
def newsSummaryRequest (query timespan : String) : SummaryRequest :=
  { user_prompt := query, timeframe := normalizeTimespan timespan, workspace_id := 1 }

/-- The request body `create_stream_news_summary` sends (lucid_client.py
lines 204-209). -/
def streamSummaryRequest (stream_ids : List Int) (workspace_id : Nat)
    (timespan : String) (user_prompt : Option String) : StreamRequest :=
  { stream_ids := stream_ids, workspace_id := workspace_id,
    timeframe := normalizeTimespan timespan, user_prompt := user_prompt }

/-- The `try` body of `LucidClient.create_news_summary` (lucid_client.py
lines 120-171).  `post` models `_make_request("POST", ...)` and
`insightGet` models `get_insight`; an `Except.error` from either models a
raised exception.  The inner `match` on `insightGet` is the inner
`try/except` around the insight fetch. -/
def create_news_summaryBody (post : SummaryRequest → Except String SummaryResponse)
    (insightGet : Nat → Except String Insight)
    (query : String) (topics : Option (List String)) (timespan : String) :
    Except String String :=
  let topics :=
    match topics with
    | none => defaultTopics
    | some ts => if ts.length = 0 then defaultTopics else ts
  let request_data := newsSummaryRequest query timespan
  match post request_data with
  | Except.error e => Except.error e
  | Except.ok response =>
    if response.success = false then
      Except.ok ("Unable to generate news summary: " ++ response.message.getD "Unknown error")
    else
      match response.insight_id with
      | some insight_id =>
        if insight_id = 0 then
          Except.ok "News summary request submitted, but no insight ID was returned."
        else
          match insightGet insight_id with
          | Except.ok insight =>
            let summary := insight.content.getD ""
            if summary = "" then
              Except.ok ("News summary generated successfully. Insight ID: " ++ natRepr insight_id)
            else Except.ok summary
          | Except.error _ =>
            Except.ok ("News summary generated successfully. Insight ID: " ++ natRepr insight_id)
      | none => Except.ok "News summary request submitted, but no insight ID was returned."

/-- `LucidClient.create_news_summary` as its caller observes it: the
catch-all `except` (lucid_client.py lines 173-175) wrapped around the
body, so an `Except.error` result would mean an exception escaped. -/
def create_news_summary (post : SummaryRequest → Except String SummaryResponse)
    (insightGet : Nat → Except String Insight)
    (query : String) (topics : Option (List String)) (timespan : String) :
    Except String String :=
  match create_news_summaryBody post insightGet query topics timespan with
  | Except.ok s => Except.ok s
  | Except.error e => Except.ok ("Unable to generate news summary due to an error: " ++ e)

/-- The `try` body of `LucidClient.create_stream_news_summary`
(lucid_client.py lines 191-239). -/
def create_stream_news_summaryBody (post : StreamRequest → Except String SummaryResponse)
    (insightGet : Nat → Except String Insight)
    (stream_ids : List Int) (workspace_id : Nat) (timespan : String)
    (user_prompt : Option String) : Except String String :=
  let request_data := streamSummaryRequest stream_ids workspace_id timespan user_prompt
  match post request_data with
  | Except.error e => Except.error e
  | Except.ok response =>
    if response.success = false then
      Except.ok ("Unable to generate stream news summary: " ++ response.message.getD "Unknown error")
    else
      match response.insight_id with
      | some insight_id =>
        if insight_id = 0 then
          Except.ok "Stream news summary request submitted, but no insight ID was returned."
        else
          match insightGet insight_id with
          | Except.ok insight =>
            let summary := insight.content.getD ""
            if summary = "" then
              Except.ok ("Stream news summary generated successfully. Insight ID: " ++ natRepr insight_id)
            else Except.ok summary
          | Except.error _ =>
            Except.ok ("Stream news summary generated successfully. Insight ID: " ++ natRepr insight_id)
      | none => Except.ok "Stream news summary request submitted, but no insight ID was returned."

/-- `LucidClient.create_stream_news_summary` as its caller observes it
(catch-all `except` at lucid_client.py lines 241-243). -/
def create_stream_news_summary (post : StreamRequest → Except String SummaryResponse)
    (insightGet : Nat → Except String Insight)
    (stream_ids : List Int) (workspace_id : Nat) (timespan : String)
    (user_prompt : Option String) : Except String String :=
  match create_stream_news_summaryBody post insightGet stream_ids workspace_id timespan user_prompt with
  | Except.ok s => Except.ok s
  | Except.error e => Except.ok ("Unable to generate stream news summary due to an error: " ++ e)

/-- The hexadecimal digits used by `secrets.token_hex`. -/
def hexDigits : List Char := "0123456789abcdef".data

/-- Model of `secrets.token_hex(nbytes)`: `2 * nbytes` hexadecimal digits
drawn from the entropy source. -/
def token_hex (entropy : Nat → Fin 16) (nbytes : Nat) : String :=
  String.mk ((List.range (2 * nbytes)).map (fun i => hexDigits.getD (entropy i).val '0'))

/-- `NewsAgent.create_api_key` (agent.py lines 118-157).  `resp` models the
`/create_api_key` call, `entropy` the randomness behind
`secrets.token_hex(32)`.  Returns the key handed back to the caller, the
updated session state, and the list of states passed to `save_state`. -/
def create_api_key (state : AgentState) (resp : Except String CreateKeyResponse)
    (entropy : Nat → Fin 16) : String × AgentState × List AgentState :=
  match resp with
  | Except.ok response =>
      let api_key :=
        if truthyOpt response.api_key then response.api_key.getD ""
        else token_hex entropy 32
      let st1 := { state with api_key := some api_key }
      let st2 :=
        if truthyOpt response.user_id then { st1 with user_id := response.user_id } else st1
      (api_key, st2, [st2])
  | Except.error _ =>
      let api_key := token_hex entropy 32
      let st1 := { state with api_key := some api_key }
      (api_key, st1, [st1])

/-- `NewsAgent.check_api_key` (agent.py lines 159-200).  `health` models
the `/health` call and `keyResp`/`entropy` feed any `create_api_key` call
it makes.  Returns the boolean result, the resulting session state, and
the number of `create_api_key` invocations performed. -/
def check_api_key (state : AgentState) (health : Except String HealthResponse)
    (keyResp : Except String CreateKeyResponse) (entropy : Nat → Fin 16) :
    Bool × AgentState × Nat :=
  if truthyOpt state.api_key = false then
    let r := create_api_key state keyResp entropy
    (true, r.2.1, 1)
  else
    match health with
    | Except.ok h =>
        if h.status = some "healthy" then (true, state, 0)
        else
          let r := create_api_key state keyResp entropy
          (true, r.2.1, 1)
    | Except.error _ =>
        let r := create_api_key state keyResp entropy
        (false, r.2.1, 1)

/-- `NewsAgent.generate_news_summary` (agent.py lines 202-227) as its
caller observes it: checks the key, delegates to the client, and converts
any escaped exception into a descriptive string.  Returns the reply string
together with the session state left by `check_api_key`. -/
def generate_news_summary (health : Except String HealthResponse)
    (keyResp : Except String CreateKeyResponse) (entropy : Nat → Fin 16)
    (post : SummaryRequest → Except String SummaryResponse)
    (insightGet : Nat → Except String Insight)
    (state : AgentState) (query : String) (topics : Option (List String))
    (timespan : String) : Except String (String × AgentState) :=
  let checked := check_api_key state health keyResp entropy
  match create_news_summary post insightGet query (some (topics.getD [])) timespan with
  | Except.ok summary => Except.ok (summary, checked.2.1)
  | Except.error e =>
      Except.ok ("Unable to generate news summary due to an error: " ++ e, checked.2.1)

/-- The query/topics/timespan extraction of `NewsAgent.process_user_message`
(agent.py lines 244-266).  An `Except.error` result models the
`IndexError` raised by `parts[1].strip().split()[0]` when nothing follows
the `timespan:` marker before the next occurrence or the end. -/
def parse_user_message (user_message : String) :
    Except String (String × List String × String) :=
  let lower := pyLower user_message
  let qt :=
    if pyContains lower "topics:" = true then
      let parts := pySplit lower "topics:"
      let q := pyStrip (parts.getD 0 "")
      let topics_part := pyStrip (parts.getD 1 "")
      let tps :=
        if pyContains topics_part "," = true then
          (pySplit topics_part ",").map pyStrip
        else [pyStrip topics_part]
      (q, tps)
    else (user_message, ([] : List String))
  if pyContains lower "timespan:" = true then
    let parts := pySplit lower "timespan:"
    let q2 :=
      if pyContains (pyLower (parts.getD 0 "")) "topics:" = true then qt.1
      else pyStrip (parts.getD 0 "")
    match pySplitWs (pyStrip (parts.getD 1 "")) with
    | [] => Except.error "list index out of range"
    | t :: _ => Except.ok (q2, qt.2, t)
  else Except.ok (qt.1, qt.2, "24h")

/-- The three-reason explanation block appended by
`NewsAgent.process_user_message` to an error-shaped summary (agent.py
lines 280-287). -/
def explanationBlock : String :=
  "This could be due to one of the following reasons:\n1. The Lucid API server might be unavailable\n2. There might be an issue with your API key\n3. The query might be too complex or contain unsupported characters\n\nPlease try again with a simpler query, or try again later."

/-- The Markdown success reply of `NewsAgent.process_user_message`
(agent.py lines 291-298), with the `datetime.now()` timestamp passed in
as `now`. -/
def formatSummaryReply (query : String) (topics : List String) (timespan : String)
    (summary : String) (now : String) : String :=
  "# News Summary: " ++ query ++ "\n\n**Topics:** " ++
    (if topics.isEmpty then "General" else joinSep ", " topics) ++
    "\n**Timespan:** " ++ timespan ++ "\n\n" ++ summary ++
    "\n\n---\n*Summary generated at " ++ now ++ "*"

/-- `NewsAgent.process_user_message` (agent.py lines 229-306) as its
caller observes it: parse, summarise, format, with the outer catch-all
converting any exception into the apology string. -/
def process_user_message (health : Except String HealthResponse)
    (keyResp : Except String CreateKeyResponse) (entropy : Nat → Fin 16)
    (post : SummaryRequest → Except String SummaryResponse)
    (insightGet : Nat → Except String Insight)
    (state : AgentState) (now : String) (user_message : String) :
    Except String String :=
  let body : Except String String :=
    match parse_user_message user_message with
    | Except.error e => Except.error e
    | Except.ok parsed =>
      match generate_news_summary health keyResp entropy post insightGet state
          parsed.1 (some parsed.2.1) parsed.2.2 with
      | Except.error e => Except.error e
      | Except.ok gen =>
        if pyStartsWith gen.1 "Unable to generate news summary" = true then
          Except.ok (gen.1 ++ "\n\n" ++ explanationBlock)
        else
          Except.ok (formatSummaryReply parsed.1 parsed.2.1 parsed.2.2 gen.1 now)
  match body with
  | Except.ok s => Except.ok s
  | Except.error e =>
      Except.ok ("An error occurred while processing your request: " ++ e ++
        "\n\nPlease try again with a different query, or contact support if the issue persists.")

/-- The status text `TwitterClient.post_tweet` submits to the API
(twitter_client.py lines 74-79): truncate to 277 characters plus an
ellipsis when the input exceeds 280 characters. -/
def post_tweet (text : String) : String :=
  if text.length > 280 then String.mk (text.data.take 277 ++ "...".data) else text

/-- The status text `TwitterClient.post_tweet_with_media` submits
(twitter_client.py lines 103-111). -/
def post_tweet_with_media (text : String) : String :=
  if text.length > 280 then String.mk (text.data.take 277 ++ "...".data) else text

/-- The status text `TwitterClient.post_tweet_async` submits
(twitter_client.py lines 139-143). -/
def post_tweet_async (text : String) : String :=
  if text.length > 280 then String.mk (text.data.take 277 ++ "...".data) else text

/-- The status text `TwitterClient.post_tweet_with_media_async` submits
(twitter_client.py lines 167-177). -/
def post_tweet_with_media_async (text : String) : String :=
  if text.length > 280 then String.mk (text.data.take 277 ++ "...".data) else text

/-- The failure mode of remote key creation described by agent.py lines
134-140 and 151-154: the HTTP call raised, or the response carried no
`api_key` field. -/
def keyCreationFailed (resp : Except String CreateKeyResponse) : Prop :=
  (∃ e, resp = Except.error e) ∨ (∃ r, resp = Except.ok r ∧ r.api_key = none)

theorem token_hex_length (entropy : Nat → Fin 16) (nbytes : Nat) :
    (token_hex entropy nbytes).length = 2 * nbytes := by
  simp [token_hex, String.length]

theorem token_hex_ne_empty (entropy : Nat → Fin 16) : token_hex entropy 32 ≠ "" := by
  intro h
  have h2 : (token_hex entropy 32).length = ("" : String).length := congrArg String.length h
  rw [token_hex_length] at h2
  simp at h2

theorem create_api_key_stores (state : AgentState) (resp : Except String CreateKeyResponse)
    (entropy : Nat → Fin 16) :
    (create_api_key state resp entropy).2.1.api_key = some (create_api_key state resp entropy).1 ∧
    (create_api_key state resp entropy).1 ≠ "" := by
  cases resp with
  | error e => exact ⟨rfl, token_hex_ne_empty entropy⟩
  | ok response =>
    constructor
    · simp only [create_api_key]
      split <;> rfl
    · simp only [create_api_key]
      split
      case isTrue h =>
        cases hk : response.api_key with
        | none => rw [hk] at h; simp [truthyOpt] at h
        | some k =>
          rw [hk] at h
          simp only [truthyOpt, decide_eq_true_eq] at h
          simpa [hk] using h
      case isFalse h => exact token_hex_ne_empty entropy

/-- C2: for any two topic lists (absent, empty, or arbitrary),
`create_news_summary` sends the same request and, under any transport
behaviour whatsoever (the oracle maps each request body to a response),
returns the identical result: the topics argument never influences the
outbound POST body nor the returned string. -/
theorem create_news_summary_topics_noninterference
    (post : SummaryRequest → Except String SummaryResponse)
    (insightGet : Nat → Except String Insight)
    (query timespan : String) (t1 t2 : Option (List String)) :
    create_news_summary post insightGet query t1 timespan =
      create_news_summary post insightGet query t2 timespan := rfl

/-- C3: for every input and every behaviour of the HTTP transport
(including raised exceptions, modelled by `Except.error` oracle results,
and malformed responses, modelled by absent fields), the three
summary-producing methods never raise to their caller: each result is
`Except.ok` carrying a string. -/
theorem summary_methods_never_raise
    (post : SummaryRequest → Except String SummaryResponse)
    (streamPost : StreamRequest → Except String SummaryResponse)
    (insightGet : Nat → Except String Insight)
    (health : Except String HealthResponse)
    (keyResp : Except String CreateKeyResponse) (entropy : Nat → Fin 16)
    (state : AgentState) (query : String) (topics : Option (List String)) (timespan : String)
    (stream_ids : List Int) (workspace_id : Nat) (user_prompt : Option String) :
    (create_news_summary post insightGet query topics timespan).isOk = true ∧
    (create_stream_news_summary streamPost insightGet stream_ids workspace_id timespan
      user_prompt).isOk = true ∧
    (generate_news_summary health keyResp entropy post insightGet state query topics
      timespan).isOk = true := by
  refine ⟨?_, ?_, ?_⟩
  · cases hb : create_news_summaryBody post insightGet query topics timespan <;>
      simp [create_news_summary, hb, Except.isOk, Except.toBool]
  · cases hb : create_stream_news_summaryBody streamPost insightGet stream_ids workspace_id
        timespan user_prompt <;>
      simp [create_stream_news_summary, hb, Except.isOk, Except.toBool]
  · cases hc : create_news_summary post insightGet query (some (topics.getD [])) timespan <;>
      simp [generate_news_summary, hc, Except.isOk, Except.toBool]

/-- C8: a timespan already ending in the character `h` or `d` is sent to
the service verbatim as the `timeframe` of the request body built by
either summary method; any other non-empty timespan is sent with `h`
appended. -/
theorem timeframe_normalization (s : String) :
    ((pyEndsWith s "h" = true ∨ pyEndsWith s "d" = true) →
      ∀ q ids w up, (newsSummaryRequest q s).timeframe = s ∧
        (streamSummaryRequest ids w s up).timeframe = s) ∧
    (pyEndsWith s "h" = false → pyEndsWith s "d" = false → s ≠ "" →
      ∀ q ids w up, (newsSummaryRequest q s).timeframe = s ++ "h" ∧
        (streamSummaryRequest ids w s up).timeframe = s ++ "h") := by
  constructor
  · rintro (h | h) q ids w up <;>
      by_cases hh : pyEndsWith s "h" = true <;>
      simp_all [newsSummaryRequest, streamSummaryRequest, normalizeTimespan]
  · intro h1 h2 _ q ids w up
    simp [newsSummaryRequest, streamSummaryRequest, normalizeTimespan, h1, h2]

/-- Witness for the timeframe normalization theorem at the concrete
timespans `"24h"`, `"7d"` and `"3"`. -/
theorem timeframe_normalization_witness :
    ((newsSummaryRequest "q" "24h").timeframe = "24h" ∧
      (streamSummaryRequest [] 1 "24h" none).timeframe = "24h") ∧
    ((newsSummaryRequest "q" "7d").timeframe = "7d" ∧
      (streamSummaryRequest [] 1 "7d" none).timeframe = "7d") ∧
    ((newsSummaryRequest "q" "3").timeframe = "3" ++ "h" ∧
      (streamSummaryRequest [] 1 "3" none).timeframe = "3" ++ "h") :=
  ⟨(timeframe_normalization "24h").1 (Or.inl (by decide)) "q" [] 1 none,
    (timeframe_normalization "7d").1 (Or.inr (by decide)) "q" [] 1 none,
    (timeframe_normalization "3").2 (by decide) (by decide) (by decide) "q" [] 1 none⟩

/-- C10: every text longer than 280 characters is posted (by all four
posting methods) as exactly 280 characters, namely the first 277
characters of the text followed by the three characters `...`; a text of
at most 280 characters is posted unchanged. -/
theorem tweet_truncation (text : String) :
    (text.length > 280 →
      (post_tweet text).length = 280 ∧
      (post_tweet text).data.take 277 = text.data.take 277 ∧
      (post_tweet text).data.drop 277 = "...".data ∧
      post_tweet_with_media text = post_tweet text ∧
      post_tweet_async text = post_tweet text ∧
      post_tweet_with_media_async text = post_tweet text) ∧
    (text.length ≤ 280 →
      post_tweet text = text ∧ post_tweet_with_media text = text ∧
      post_tweet_async text = text ∧ post_tweet_with_media_async text = text) := by
  have hdata : text.length = text.data.length := rfl
  constructor
  · intro h
    have h277 : (text.data.take 277).length = 277 := by
      rw [hdata] at h
      rw [List.length_take]
      omega
    have hpt : post_tweet text = String.mk (text.data.take 277 ++ "...".data) := by
      simp [post_tweet, h]
    refine ⟨?_, ?_, ?_, ?_, ?_, ?_⟩
    · rw [hpt]
      show (text.data.take 277 ++ "...".data).length = 280
      rw [List.length_append, h277]
      rfl
    · rw [hpt]
      show (text.data.take 277 ++ "...".data).take 277 = text.data.take 277
      exact List.take_left' h277
    · rw [hpt]
      show (text.data.take 277 ++ "...".data).drop 277 = "...".data
      exact List.drop_left' h277
    · rfl
    · rfl
    · rfl
  · intro h
    have hn : ¬ text.length > 280 := by omega
    exact ⟨by simp [post_tweet, hn], by simp [post_tweet_with_media, hn],
      by simp [post_tweet_async, hn], by simp [post_tweet_with_media_async, hn]⟩

set_option maxRecDepth 8192 in
/-- Witness for the tweet truncation theorem at a 300-character text and
at a 2-character text. -/
theorem tweet_truncation_witness :
    (String.mk (List.replicate 300 'a')).length > 280 ∧
    ((post_tweet (String.mk (List.replicate 300 'a'))).length = 280 ∧
      (post_tweet (String.mk (List.replicate 300 'a'))).data.take 277 =
        (String.mk (List.replicate 300 'a')).data.take 277 ∧
      (post_tweet (String.mk (List.replicate 300 'a'))).data.drop 277 = "...".data ∧
      post_tweet_with_media (String.mk (List.replicate 300 'a')) =
        post_tweet (String.mk (List.replicate 300 'a')) ∧
      post_tweet_async (String.mk (List.replicate 300 'a')) =
        post_tweet (String.mk (List.replicate 300 'a')) ∧
      post_tweet_with_media_async (String.mk (List.replicate 300 'a')) =
        post_tweet (String.mk (List.replicate 300 'a'))) ∧
    (post_tweet "hi" = "hi" ∧ post_tweet_with_media "hi" = "hi" ∧
      post_tweet_async "hi" = "hi" ∧ post_tweet_with_media_async "hi" = "hi") :=
  ⟨by decide, (tweet_truncation (String.mk (List.replicate 300 'a'))).1 (by decide),
    (tweet_truncation "hi").2 (by decide)⟩

set_option maxRecDepth 8192 in
/-- C1 is refuted at the spec's own scenario input: the topic list keeps
everything after `topics:` including the `timespan:` text, so the claimed
topics `["policy", "tech"]` are not what the parser yields, and the second
topic does contain the timespan marker. -/
theorem parse_scenario_counterexample :
    parse_user_message "AI regulation topics: policy, tech timespan: 7d" =
      Except.ok ("ai regulation", ["policy", "tech timespan: 7d"], "7d") ∧
    (["policy", "tech timespan: 7d"] ≠ (["policy", "tech"] : List String)) ∧
    pyContains "tech timespan: 7d" "timespan:" = true := by
  refine ⟨by decide, by decide, by decide⟩

set_option maxRecDepth 8192 in
/-- C1 (amended): on the scenario message the parser yields the query
`"ai regulation"` (text before `topics:`, trimmed and case-folded) and the
timespan `"7d"`, but the topic list is the comma-split of all the text
after `topics:`, so its final element retains the timespan text:
`["policy", "tech timespan: 7d"]`. -/
theorem parse_scenario_amended :
    parse_user_message "AI regulation topics: policy, tech timespan: 7d" =
      Except.ok ("ai regulation", ["policy", "tech timespan: 7d"], "7d") ∧
    pyContains "tech timespan: 7d" "7d" = true := by
  refine ⟨by decide, by decide⟩

set_option maxRecDepth 8192 in
/-- C9 is refuted when the `timespan:` marker occurs twice: on the message
`"a timespan:48h,timespan: 7d"` the first whitespace-delimited token after
the (first) marker is `"48h,timespan:"`, yet the parser yields `"48h,"`
because `split` removes every occurrence of the marker. -/
theorem parse_timespan_counterexample :
    ("a timespan:" ++ "48h,timespan: 7d" : String) = "a timespan:48h,timespan: 7d" ∧
    pySplitWs "48h,timespan: 7d" = ["48h,timespan:", "7d"] ∧
    parse_user_message "a timespan:48h,timespan: 7d" = Except.ok ("a", [], "48h,") ∧
    (("48h," : String) ≠ "48h,timespan:") := by
  refine ⟨by decide, by decide, by decide, by decide⟩

/-- C9 (amended): when the message contains `timespan:`, the extracted
timespan is the first whitespace-delimited token of the text strictly
between the first occurrence of the marker and the next occurrence (or the
end of the message) — which for a single occurrence is the first token
after the marker — provided such a token exists; a message containing
neither marker yields the whole message as the query, an empty topic list,
and timespan `"24h"`. -/
theorem parse_timespan_amended (msg : String) :
    (pyContains (pyLower msg) "timespan:" = true →
      ∀ t rest,
        pySplitWs (pyStrip ((pySplit (pyLower msg) "timespan:").getD 1 "")) = t :: rest →
        ∃ q tps, parse_user_message msg = Except.ok (q, tps, t)) ∧
    (pyContains (pyLower msg) "topics:" = false →
      pyContains (pyLower msg) "timespan:" = false →
      parse_user_message msg = Except.ok (msg, [], "24h")) := by
  constructor
  · intro h t rest ht
    simp only [parse_user_message, h, ht, if_true]
    exact ⟨_, _, rfl⟩
  · intro h1 h2
    simp [parse_user_message, h1, h2]

set_option maxRecDepth 8192 in
/-- Witness for the amended timespan-extraction theorem: a single-marker
message yields the first token after the marker, and a marker-free message
yields the defaults. -/
theorem parse_timespan_amended_witness :
    (∃ q tps, parse_user_message "latest tech timespan: 48h rest" =
      Except.ok (q, tps, "48h")) ∧
    parse_user_message "just a plain query" =
      Except.ok ("just a plain query", [], "24h") :=
  ⟨(parse_timespan_amended "latest tech timespan: 48h rest").1 (by decide) "48h" ["rest"]
      (by decide),
    (parse_timespan_amended "just a plain query").2 (by decide) (by decide)⟩

/-- C5: when the summary endpoint reports success with insight id 42 and
the follow-up insight fetch raises or returns empty content,
`create_news_summary` returns exactly the insight-id message instead of
propagating the retrieval failure. -/
theorem insight_fallback_message
    (post : SummaryRequest → Except String SummaryResponse)
    (insightGet : Nat → Except String Insight)
    (query : String) (topics : Option (List String)) (timespan : String) (m : Option String)
    (hpost : ∀ r, post r = Except.ok { success := true, message := m, insight_id := some 42 })
    (hins : (∃ e, insightGet 42 = Except.error e) ∨
      (∃ ins, insightGet 42 = Except.ok ins ∧ ins.content.getD "" = "")) :
    create_news_summary post insightGet query topics timespan =
      Except.ok "News summary generated successfully. Insight ID: 42" := by
  have hstr : ("News summary generated successfully. Insight ID: " ++ natRepr 42) =
      "News summary generated successfully. Insight ID: 42" := by decide
  have hbody : create_news_summaryBody post insightGet query topics timespan =
      Except.ok ("News summary generated successfully. Insight ID: " ++ natRepr 42) := by
    rcases hins with ⟨e, he⟩ | ⟨ins, hi, hc⟩
    · simp [create_news_summaryBody, hpost, he]
    · simp [create_news_summaryBody, hpost, hi, hc]
  simp [create_news_summary, hbody, hstr]

/-- Witness for the insight-fallback theorem with a raising insight fetch. -/
theorem insight_fallback_message_witness :
    create_news_summary
        (fun _ => Except.ok { success := true, message := none, insight_id := some 42 })
        (fun _ => Except.error "connection refused") "q" none "24h" =
      Except.ok "News summary generated successfully. Insight ID: 42" :=
  insight_fallback_message _ _ "q" none "24h" none (fun _ => rfl)
    (Or.inl ⟨"connection refused", rfl⟩)

/-- C4: when the summary endpoint reports `success=false` with message
`"no data"`, the agent's reply is the recovered error string followed by
the three-reason explanation block, returned as a value rather than
raised. -/
theorem no_data_reply
    (health : Except String HealthResponse) (keyResp : Except String CreateKeyResponse)
    (entropy : Nat → Fin 16)
    (post : SummaryRequest → Except String SummaryResponse)
    (insightGet : Nat → Except String Insight)
    (state : AgentState) (now user_message : String)
    (q : String) (tps : List String) (ts : String)
    (hparse : parse_user_message user_message = Except.ok (q, tps, ts))
    (hpost : ∀ r, post r =
      Except.ok { success := false, message := some "no data", insight_id := none }) :
    process_user_message health keyResp entropy post insightGet state now user_message =
      Except.ok ("Unable to generate news summary: no data" ++ "\n\n" ++ explanationBlock) := by
  have hsum : create_news_summary post insightGet q (some tps) ts =
      Except.ok "Unable to generate news summary: no data" := by
    have hbody : create_news_summaryBody post insightGet q (some tps) ts =
        Except.ok ("Unable to generate news summary: " ++ "no data") := by
      simp [create_news_summaryBody, hpost]
    have hstr : ("Unable to generate news summary: " ++ "no data") =
        "Unable to generate news summary: no data" := by decide
    simp [create_news_summary, hbody, hstr]
  have hgen : generate_news_summary health keyResp entropy post insightGet state q
      (some tps) ts =
      Except.ok ("Unable to generate news summary: no data",
        (check_api_key state health keyResp entropy).2.1) := by
    simp [generate_news_summary, hsum]
  have hstart : pyStartsWith "Unable to generate news summary: no data"
      "Unable to generate news summary" = true := by decide
  simp [process_user_message, hparse, hgen, hstart]

/-- Witness for the no-data reply theorem at a plain one-word message. -/
theorem no_data_reply_witness :
    parse_user_message "hello" = Except.ok ("hello", [], "24h") ∧
    process_user_message (Except.ok { status := some "healthy" })
        (Except.ok { api_key := some "k", user_id := none })
        (fun _ => (0 : Fin 16))
        (fun _ => Except.ok { success := false, message := some "no data", insight_id := none })
        (fun _ => Except.ok { content := none })
        { api_key := some "k", user_id := none, user_name := "u" } "now" "hello" =
      Except.ok ("Unable to generate news summary: no data" ++ "\n\n" ++ explanationBlock) :=
  ⟨by decide,
    no_data_reply _ _ _ _ _ _ "now" "hello" "hello" [] "24h" (by decide) (fun _ => rfl)⟩

/-- C6: whenever remote key creation fails — the HTTP call raised, or the
response has no `api_key` field — `create_api_key` falls back to a locally
generated token: it returns that token, stores it (non-empty) in the
session state's `api_key` field, and saves exactly that state. -/
theorem key_creation_fallback (state : AgentState) (resp : Except String CreateKeyResponse)
    (entropy : Nat → Fin 16) (hfail : keyCreationFailed resp) :
    (create_api_key state resp entropy).1 = token_hex entropy 32 ∧
    (create_api_key state resp entropy).2.1.api_key = some (token_hex entropy 32) ∧
    token_hex entropy 32 ≠ "" ∧
    (create_api_key state resp entropy).2.2 = [(create_api_key state resp entropy).2.1] := by
  rcases hfail with ⟨e, he⟩ | ⟨r, hr, hk⟩
  · subst he
    exact ⟨rfl, rfl, token_hex_ne_empty entropy, rfl⟩
  · subst hr
    refine ⟨?_, ?_, token_hex_ne_empty entropy, rfl⟩
    · simp [create_api_key, truthyOpt, hk]
    · simp only [create_api_key, truthyOpt, hk]
      split <;> rfl

/-- Witness for the key-creation fallback theorem on a raising call. -/
theorem key_creation_fallback_witness :
    keyCreationFailed (Except.error "connection refused") ∧
    ((create_api_key { api_key := none, user_id := none, user_name := "u" }
        (Except.error "connection refused") (fun _ => (0 : Fin 16))).1 =
      token_hex (fun _ => (0 : Fin 16)) 32 ∧
    (create_api_key { api_key := none, user_id := none, user_name := "u" }
        (Except.error "connection refused") (fun _ => (0 : Fin 16))).2.1.api_key =
      some (token_hex (fun _ => (0 : Fin 16)) 32) ∧
    token_hex (fun _ => (0 : Fin 16)) 32 ≠ "" ∧
    (create_api_key { api_key := none, user_id := none, user_name := "u" }
        (Except.error "connection refused") (fun _ => (0 : Fin 16))).2.2 =
      [(create_api_key { api_key := none, user_id := none, user_name := "u" }
        (Except.error "connection refused") (fun _ => (0 : Fin 16))).2.1]) :=
  ⟨Or.inl ⟨"connection refused", rfl⟩,
    key_creation_fallback _ _ _ (Or.inl ⟨"connection refused", rfl⟩)⟩

/-- C7: with a healthy server, a cached non-empty key survives two
consecutive `check_api_key` calls with zero keys issued and the state
unchanged; and in any case (cached key or not) at most one key is issued
across the two calls. -/
theorem check_api_key_idempotent (state : AgentState)
    (health : Except String HealthResponse)
    (keyResp1 keyResp2 : Except String CreateKeyResponse) (e1 e2 : Nat → Fin 16)
    (hh : health = Except.ok { status := some "healthy" }) :
    (∀ k, state.api_key = some k → k ≠ "" →
      check_api_key state health keyResp1 e1 = (true, state, 0) ∧
      check_api_key (check_api_key state health keyResp1 e1).2.1 health keyResp2 e2 =
        (true, state, 0)) ∧
    (check_api_key state health keyResp1 e1).2.2 +
      (check_api_key (check_api_key state health keyResp1 e1).2.1 health keyResp2 e2).2.2
      ≤ 1 := by
  subst hh
  have hcheck : ∀ (st : AgentState) (kr : Except String CreateKeyResponse)
      (er : Nat → Fin 16), truthyOpt st.api_key = true →
      check_api_key st (Except.ok { status := some "healthy" }) kr er = (true, st, 0) := by
    intro st kr er ht
    simp [check_api_key, ht]
  constructor
  · intro k hk hkne
    have ht : truthyOpt state.api_key = true := by simp [hk, truthyOpt, hkne]
    have h1 := hcheck state keyResp1 e1 ht
    refine ⟨h1, ?_⟩
    rw [h1]
    exact hcheck state keyResp2 e2 ht
  · by_cases ht : truthyOpt state.api_key = true
    · rw [hcheck state keyResp1 e1 ht]
      have h2 := hcheck state keyResp2 e2 ht
      simp [h2]
    · have htf : truthyOpt state.api_key = false := by
        cases h : truthyOpt state.api_key
        · rfl
        · exact absurd h ht
      have h1 : check_api_key state (Except.ok { status := some "healthy" }) keyResp1 e1 =
          (true, (create_api_key state keyResp1 e1).2.1, 1) := by
        simp [check_api_key, htf]
      rw [h1]
      have hstores := create_api_key_stores state keyResp1 e1
      have ht2 : truthyOpt (create_api_key state keyResp1 e1).2.1.api_key = true := by
        rw [hstores.1]
        simp [truthyOpt, hstores.2]
      have h2 := hcheck (create_api_key state keyResp1 e1).2.1 keyResp2 e2 ht2
      simp [h2]

/-- Witness for the credential-check idempotence theorem with a cached key
and a healthy server. -/
theorem check_api_key_idempotent_witness :
    check_api_key { api_key := some "key", user_id := none, user_name := "u" }
        (Except.ok { status := some "healthy" }) (Except.error "down") (fun _ => (0 : Fin 16)) =
      (true, { api_key := some "key", user_id := none, user_name := "u" }, 0) ∧
    check_api_key (check_api_key { api_key := some "key", user_id := none, user_name := "u" }
          (Except.ok { status := some "healthy" }) (Except.error "down")
          (fun _ => (0 : Fin 16))).2.1
        (Except.ok { status := some "healthy" }) (Except.error "down") (fun _ => (0 : Fin 16)) =
      (true, { api_key := some "key", user_id := none, user_name := "u" }, 0) :=
  (check_api_key_idempotent { api_key := some "key", user_id := none, user_name := "u" }
      (Except.ok { status := some "healthy" }) (Except.error "down") (Except.error "down")
      (fun _ => (0 : Fin 16)) (fun _ => (0 : Fin 16)) rfl).1 "key" rfl (by decide)
